import Mathlib

/-!
Verification of `redux-patch-action-middleware` (src/src/index.ts).

We shallowly embed the library: JavaScript objects (actions and the
objects returned by patchers) become association lists from field names
to values, `Map<string, ActionPatcher>` registries become association
lists from type identifiers to patcher functions, and the mutable
registration side effects become explicit state passing (a factory call
returns the updated registry together with the action creator it
produced).
-/

namespace ReduxPatch

/-- JavaScript values as they occur across the surface of this library:
numbers, strings, `undefined`, and plain objects. -/
inductive Value where
  | vnum : Int → Value
  | vstr : String → Value
  | vundef : Value
  | vobj : List (String × Value) → Value

/-- A JavaScript object: an ordered list of key/value pairs with the
keys unique (as JS object keys are). -/
def Obj : Type := List (String × Value)

/-- Property read `o[k]`: the value stored at key `k`, if present. -/
def Obj.get (o : Obj) (k : String) : Option Value :=
  match o with
  | [] => none
  | (k', v) :: rest => if k' = k then some v else Obj.get rest k

/-- Property write: `{...o, k: v}` for a single key.  JavaScript keeps
the position of an existing key and appends a fresh one at the end. -/
def Obj.set (o : Obj) (k : String) (v : Value) : Obj :=
  match o with
  | [] => [(k, v)]
  | (k', v') :: rest =>
      if k' = k then (k, v) :: rest else (k', v') :: Obj.set rest k v

/-- `action.type` as the middleware reads it: the string stored under
the `type` key (actions crossing the boundary always carry one). -/
def actionType (a : Obj) : String :=
  match Obj.get a "type" with
  | some (Value.vstr s) => s
  | _ => ""

/-- `action.payload` as the payload-patcher wrapper reads it
(`undefined` when the field is absent, as in JavaScript). -/
def payloadOf (a : Obj) : Value :=
  match Obj.get a "payload" with
  | some v => v
  | none => Value.vundef

/-- An `ActionPatcher<S, IP, OP>`: a function from the dispatched
action and the current state to the patched fields (an action-shaped
object; `type` is excluded by the TypeScript type but nothing enforces
that at runtime, so the model allows any object). -/
def Patcher (S : Type) : Type := Obj → S → Obj

/-- A `PayloadPatcher<S, IP, OP>`: a function from the dispatched
payload and the current state to the new payload. -/
def PayloadPatcher (S : Type) : Type := Value → S → Value

/-- A patcher registry, `Map<string, ActionPatcher<any, any, any>>`. -/
def Registry (S : Type) : Type := List (String × Patcher S)

/-- `Map.prototype.get`: the patcher registered under `t`, if any. -/
def Registry.get {S : Type} (r : Registry S) (t : String) : Option (Patcher S) :=
  match r with
  | [] => none
  | (t', f) :: rest => if t' = t then some f else Registry.get rest t

/-- `Map.prototype.set`: store `f` under `t`, replacing any earlier
entry for the same identifier. -/
def Registry.set {S : Type} (r : Registry S) (t : String) (f : Patcher S) : Registry S :=
  match r with
  | [] => [(t, f)]
  | (t', f') :: rest =>
      if t' = t then (t, f) :: rest else (t', f') :: Registry.set rest t f

/-- JavaScript `a || b` on patcher lookups: functions are truthy and
`undefined` is falsy, so this is just the option fallback. -/
def jsOr {α : Type} (a b : Option α) : Option α :=
  match a with
  | some x => some x
  | none => b

/-- The `createAction(type)` helper of Redux Toolkit applied to a payload: the
returned action creator builds the plain action `{type, payload}`. -/
def createAction (t : String) : Value → Obj :=
  fun payload => [("type", Value.vstr t), ("payload", payload)]

/-- The body of the innermost middleware closure, from the lookup to
the rebuilt action (the part before `next` is applied): look the type
up in the instance registry, then the global registry, keep the first
hit, and when a patcher is found replace the action with
`{...patcher(action, state), type: action.type}`. -/
def patchAction {S : Type} (instancePatchers globalActionPatchers : Registry S)
    (state : S) (action : Obj) : Obj :=
  let instancePatcher := Registry.get instancePatchers (actionType action)
  let globalPatcher := Registry.get globalActionPatchers (actionType action)
  match jsOr instancePatcher globalPatcher with
  | some patcher => Obj.set (patcher action state) "type" (Value.vstr (actionType action))
  | none => action

/-- The middleware stage `(api) => (next) => (action) => ...`: the
store handle is reduced to the state it returns from `getState()`, and
the stage returns `next` applied to the (possibly patched) action. -/
def middleware {S R : Type} (instancePatchers globalActionPatchers : Registry S)
    (state : S) (next : Obj → R) (action : Obj) : R :=
  next (patchAction instancePatchers globalActionPatchers state action)

/-- The result of a `createPatchedAction` call: either the direct
branch ran (the registry was updated and an action creator returned) or
the curried branch returned a function awaiting the type identifier and
the patcher. -/
inductive PAResult (S : Type) where
  | creator : Registry S → (Value → Obj) → PAResult S
  | curried : (String → Patcher S → Registry S × (Value → Obj)) → PAResult S

/-- `createPatchedAction(typeOrUndefined?, actionPatcher?, patchers)`:
when either of the first two arguments is missing — or `type` is falsy,
which for a string means empty — return the curried registration
function over the captured registry; otherwise register the patcher
under the identifier and return `createAction(type)`. -/
def createPatchedAction {S : Type} :
    Option String → Option (Patcher S) → Registry S → PAResult S
  | some t, some f, patchers =>
      if t = "" then
        PAResult.curried (fun t2 f2 => (Registry.set patchers t2 f2, createAction t2))
      else
        PAResult.creator (Registry.set patchers t f) (createAction t)
  | _, _, patchers =>
      PAResult.curried (fun t2 f2 => (Registry.set patchers t2 f2, createAction t2))

/-- The full-action patcher that `createPatchedPayloadAction` derives
from a payload patcher:
`(action, state) => ({...action, payload: payloadPatcher(action.payload, state)})`. -/
def wrapPayloadPatcher {S : Type} (payloadPatcher : PayloadPatcher S) : Patcher S :=
  fun action state => Obj.set action "payload" (payloadPatcher (payloadOf action) state)

/-- The result of a `createPatchedPayloadAction` call: the direct
branch delegates to `createPatchedAction` (so yields its result), while
the curried branch returns a function awaiting the type identifier and
the payload patcher. -/
inductive PPAResult (S : Type) where
  | res : PAResult S → PPAResult S
  | curried : (String → PayloadPatcher S → PAResult S) → PPAResult S

/-- `createPatchedPayloadAction(typeOrUndefined?, payloadPatcher?, patchers)`:
same branching as `createPatchedAction`; both branches wrap the payload
patcher into a full patcher and delegate to `createPatchedAction`. -/
def createPatchedPayloadAction {S : Type} :
    Option String → Option (PayloadPatcher S) → Registry S → PPAResult S
  | some t, some g, patchers =>
      if t = "" then
        PPAResult.curried (fun t2 g2 =>
          createPatchedAction (some t2) (some (wrapPayloadPatcher g2)) patchers)
      else
        PPAResult.res (createPatchedAction (some t) (some (wrapPayloadPatcher g)) patchers)
  | _, _, patchers =>
      PPAResult.curried (fun t2 g2 =>
        createPatchedAction (some t2) (some (wrapPayloadPatcher g2)) patchers)

/-- `createPatchActionMiddleware` starts from a fresh, empty instance
registry (`new Map()`). -/
def emptyRegistry (S : Type) : Registry S := []

/-- The scoped factory `createInstancePatchedAction` bound to the
instance registry of a middleware instance:
`createPatchedAction(type, f, instancePatchers)`. -/
def createInstancePatchedAction {S : Type} (instancePatchers : Registry S)
    (t : String) (f : Patcher S) : PAResult S :=
  createPatchedAction (some t) (some f) instancePatchers

/-- The scoped factory `createInstancePatchedPayloadAction` bound to the
instance registry of a middleware instance. -/
def createInstancePatchedPayloadAction {S : Type} (instancePatchers : Registry S)
    (t : String) (g : PayloadPatcher S) : PPAResult S :=
  createPatchedPayloadAction (some t) (some g) instancePatchers

/-- Applies the function returned by the curried branch of
`createPatchedAction`, when that branch was taken. -/
def PAResult.applyCurried {S : Type} :
    PAResult S → String → Patcher S → Option (Registry S × (Value → Obj))
  | PAResult.curried c, t, f => some (c t f)
  | PAResult.creator _ _, _, _ => none

/-- Applies the function returned by the curried branch of
`createPatchedPayloadAction`, when that branch was taken. -/
def PPAResult.applyCurried {S : Type} :
    PPAResult S → String → PayloadPatcher S → Option (PAResult S)
  | PPAResult.curried c, t, g => some (c t g)
  | PPAResult.res _, _, _ => none

/-- Reads a numeric field of an object-shaped value, as the example
patchers read `payload.amount` (the 0 default stands in for a field
access no scenario performs). -/
def numField (v : Value) (k : String) : Int :=
  match v with
  | Value.vobj o =>
      match Obj.get o k with
      | some (Value.vnum n) => n
      | _ => 0
  | _ => 0

/-- The scoped-isolation scenario: instance A registers `fA` under
`"x"` through its bound factory; when `withB` is set, an independent
instance B likewise registers `fB` under `"x"` through its own bound
factory; the action is then dispatched through the middleware of A.
The registration of B touches only the registry of B, which the
dispatch through A never consults. -/
def scopedIsolationRun {S R : Type} (glob : Registry S) (fA fB : Patcher S)
    (withB : Bool) (state : S) (next : Obj → R) (a : Obj) : R :=
  let registrationA := createInstancePatchedAction (emptyRegistry S) "x" fA
  let _registrationB :=
    if withB then some (createInstancePatchedAction (emptyRegistry S) "x" fB) else none
  match registrationA with
  | PAResult.creator instA _ => middleware instA glob state next a
  | PAResult.curried _ => next a

/-- The state shape of the idempotence scenario. -/
structure RootState where
  amount : Int
  extra : Int
deriving DecidableEq

/-- The payload patcher of the idempotence scenario:
`(p, s) => ({amount: p.amount + s.extra + s.amount})`. -/
def incPayloadPatcher : PayloadPatcher RootState :=
  fun p s => Value.vobj [("amount", Value.vnum (numField p "amount" + s.extra + s.amount))]

/-- The registry of the idempotence scenario, as populated by the
factory call registering `incPayloadPatcher` under `"increment"`. -/
def incRegistry : Registry RootState :=
  Registry.set (emptyRegistry RootState) "increment" (wrapPayloadPatcher incPayloadPatcher)

/-- The dispatched action of the idempotence scenario. -/
def incAction : Obj :=
  [("type", Value.vstr "increment"), ("payload", Value.vobj [("amount", Value.vnum 2)])]

/-- One dispatch of the idempotence scenario: run the interception on
the current state (read freshly at this step), then apply the
state-update rule `state.amount = patchedPayload.amount`; returns the
new state and the action forwarded downstream. -/
def stepState (s : RootState) : RootState × Obj :=
  let out := patchAction (emptyRegistry RootState) incRegistry s incAction
  ({ amount := numField (payloadOf out) "amount", extra := s.extra }, out)

/-- A concrete patcher for witnesses; its result even carries a
conflicting `type` field. -/
def wPatcher : Patcher Int :=
  fun _ _ => [("payload", Value.vnum 5), ("type", Value.vstr "evil")]

/-- A second concrete patcher for witnesses, distinguishable from
`wPatcher` by its output. -/
def wPatcherA : Patcher Int := fun _ _ => [("payload", Value.vnum 7)]

/-- A concrete payload patcher for witnesses. -/
def wPayloadPatcher : PayloadPatcher Int := fun _ _ => Value.vnum 9

/-- A concrete global registry for witnesses, holding `wPatcher` under
`"t"`. -/
def wGlob : Registry Int := [("t", wPatcher)]

/-- A concrete instance registry for witnesses, holding `wPatcherA`
under the same identifier `"t"`. -/
def wInst : Registry Int := [("t", wPatcherA)]

/-- A concrete dispatched action of type `"t"` for witnesses. -/
def wAction : Obj := [("type", Value.vstr "t"), ("payload", Value.vnum 1)]

/-- A concrete action of type `"t"` carrying an extra `meta` field, for
the frame-condition witness. -/
def wActionX : Obj :=
  [("type", Value.vstr "t"), ("payload", Value.vnum 1), ("meta", Value.vstr "m")]

/-- A concrete action of type `"x"` for the scoped-isolation witness. -/
def wXAction : Obj := [("type", Value.vstr "x"), ("payload", Value.vnum 1)]

end ReduxPatch

namespace ReduxPatch

/-- Reading back the key just written returns the written value. -/
theorem obj_get_set_key (o : Obj) (k : String) (v : Value) :
    Obj.get (Obj.set o k v) k = some v := by
  induction o with
  | nil => simp [Obj.get, Obj.set]
  | cons hd tl ih =>
      obtain ⟨k', v'⟩ := hd
      by_cases h : k' = k
      · simp [Obj.get, Obj.set, h]
      · simp [Obj.get, Obj.set, h, ih]

/-- Writing one key leaves every other key unchanged. -/
theorem obj_get_set_ne (o : Obj) (k k2 : String) (v : Value) (h : k2 ≠ k) :
    Obj.get (Obj.set o k v) k2 = Obj.get o k2 := by
  induction o with
  | nil =>
      simp only [Obj.set, Obj.get]
      rw [if_neg (Ne.symm h)]
  | cons hd tl ih =>
      obtain ⟨k', v'⟩ := hd
      by_cases hk : k' = k
      · subst hk
        simp only [Obj.set, if_pos rfl, Obj.get]
        rw [if_neg (Ne.symm h), if_neg (Ne.symm h)]
      · simp only [Obj.set, if_neg hk, Obj.get]
        by_cases hk2 : k' = k2
        · rw [if_pos hk2, if_pos hk2]
        · rw [if_neg hk2, if_neg hk2, ih]

/-- Reading back the identifier just registered returns the registered
patcher. -/
theorem registry_get_set_key {S : Type} (r : Registry S) (t : String) (f : Patcher S) :
    Registry.get (Registry.set r t f) t = some f := by
  induction r with
  | nil => simp [Registry.get, Registry.set]
  | cons hd tl ih =>
      obtain ⟨t', f'⟩ := hd
      by_cases h : t' = t
      · simp [Registry.get, Registry.set, h]
      · simp [Registry.get, Registry.set, h, ih]

/-- Registering one identifier leaves every other identifier unchanged. -/
theorem registry_get_set_ne {S : Type} (r : Registry S) (t t2 : String)
    (f : Patcher S) (h : t2 ≠ t) :
    Registry.get (Registry.set r t f) t2 = Registry.get r t2 := by
  induction r with
  | nil =>
      simp only [Registry.set, Registry.get]
      rw [if_neg (Ne.symm h)]
  | cons hd tl ih =>
      obtain ⟨t', f'⟩ := hd
      by_cases hk : t' = t
      · subst hk
        simp only [Registry.set, if_pos rfl, Registry.get]
        rw [if_neg (Ne.symm h), if_neg (Ne.symm h)]
      · simp only [Registry.set, if_neg hk, Registry.get]
        by_cases hk2 : t' = t2
        · rw [if_pos hk2, if_pos hk2]
        · rw [if_neg hk2, if_neg hk2, ih]

end ReduxPatch

namespace ReduxPatch

/-- When the two lookups resolve to a patcher, the middleware forwards
the rebuilt action. -/
theorem middleware_resolved {S R : Type} (inst glob : Registry S) (state : S)
    (next : Obj → R) (a : Obj) (f : Patcher S)
    (h : jsOr (Registry.get inst (actionType a)) (Registry.get glob (actionType a)) = some f) :
    middleware inst glob state next a
      = next (Obj.set (f a state) "type" (Value.vstr (actionType a))) := by
  simp only [middleware, patchAction, h]

/-- When neither registry has an entry for the type of the action, the
middleware forwards the action itself. -/
theorem middleware_unresolved {S R : Type} (inst glob : Registry S) (state : S)
    (next : Obj → R) (a : Obj)
    (h1 : Registry.get inst (actionType a) = none)
    (h2 : Registry.get glob (actionType a) = none) :
    middleware inst glob state next a = next a := by
  simp only [middleware, patchAction, h1, h2, jsOr]

/-- Claim C1: for a dispatched action whose type resolves to a
registered transformation `f`, the action forwarded to the next stage
is `{...f(action, state), type: action.type}`, and its `type` field
always equals the original dispatched type — any `type` field in the
return value of `f` is overwritten. -/
theorem patched_action_keeps_original_type {S R : Type}
    (inst glob : Registry S) (state : S) (next : Obj → R) (a : Obj) (f : Patcher S)
    (h : jsOr (Registry.get inst (actionType a)) (Registry.get glob (actionType a)) = some f) :
    middleware inst glob state next a
      = next (Obj.set (f a state) "type" (Value.vstr (actionType a)))
    ∧ Obj.get (Obj.set (f a state) "type" (Value.vstr (actionType a))) "type"
      = some (Value.vstr (actionType a)) := by
  exact ⟨middleware_resolved inst glob state next a f h, obj_get_set_key _ _ _⟩

/-- Witness for C1 at a concrete registry, state and action, with a
patcher whose result carries a conflicting `type` field that gets
discarded. -/
theorem patched_action_keeps_original_type_witness :
    middleware (emptyRegistry Int) wGlob 0 (fun o => o) wAction
      = (fun o => o) (Obj.set (wPatcher wAction 0) "type" (Value.vstr (actionType wAction)))
    ∧ Obj.get (Obj.set (wPatcher wAction 0) "type" (Value.vstr (actionType wAction))) "type"
      = some (Value.vstr (actionType wAction)) :=
  patched_action_keeps_original_type (emptyRegistry Int) wGlob 0 (fun o => o) wAction wPatcher rfl

/-- Claim C2: for a dispatched action whose type has no registered
transformation in either the instance registry or the global registry,
the middleware forwards the exact same action to the next stage and
returns the result of the next stage. -/
theorem unregistered_action_passthrough {S R : Type}
    (inst glob : Registry S) (state : S) (next : Obj → R) (a : Obj)
    (h1 : Registry.get inst (actionType a) = none)
    (h2 : Registry.get glob (actionType a) = none) :
    middleware inst glob state next a = next a :=
  middleware_unresolved inst glob state next a h1 h2

/-- Witness for C2 at empty registries and a concrete action. -/
theorem unregistered_action_passthrough_witness :
    middleware (emptyRegistry Int) (emptyRegistry Int) 0 (fun o => o) wAction
      = (fun o => o) wAction :=
  unregistered_action_passthrough (emptyRegistry Int) (emptyRegistry Int) 0
    (fun o => o) wAction rfl rfl

/-- Claim C3: an instance-registered transformation always takes
precedence over a global one for the same identifier; the global
registry determines the applied transformation only when the instance
registry has no entry for the type of the action. -/
theorem instance_registry_precedence {S R : Type}
    (inst glob : Registry S) (state : S) (next : Obj → R) (a : Obj)
    (f g : Patcher S) :
    (Registry.get inst (actionType a) = some f →
      middleware inst glob state next a
        = next (Obj.set (f a state) "type" (Value.vstr (actionType a))))
    ∧ (Registry.get inst (actionType a) = none →
       Registry.get glob (actionType a) = some g →
      middleware inst glob state next a
        = next (Obj.set (g a state) "type" (Value.vstr (actionType a)))) := by
  constructor
  · intro h
    apply middleware_resolved
    rw [h]
    rfl
  · intro h1 h2
    apply middleware_resolved
    rw [h1, h2]
    rfl

/-- Witness for C3: with `wPatcherA` registered for `"t"` in the
instance registry and `wPatcher` registered for the same `"t"` in the
global registry, the dispatch applies `wPatcherA`; with an empty
instance registry it falls back to the global `wPatcher`. -/
theorem instance_registry_precedence_witness :
    middleware wInst wGlob 0 (fun o => o) wAction
      = (fun o => o) (Obj.set (wPatcherA wAction 0) "type" (Value.vstr (actionType wAction)))
    ∧ middleware (emptyRegistry Int) wGlob 0 (fun o => o) wAction
      = (fun o => o) (Obj.set (wPatcher wAction 0) "type" (Value.vstr (actionType wAction))) :=
  ⟨(instance_registry_precedence wInst wGlob 0 (fun o => o) wAction wPatcherA wPatcher).1 rfl,
   (instance_registry_precedence (emptyRegistry Int) wGlob 0 (fun o => o) wAction
      wPatcherA wPatcher).2 rfl rfl⟩

end ReduxPatch

namespace ReduxPatch

/-- Claim C4: registering a payload patcher `g` under a nonempty `t`
through the payload-only factory stores the wrapped patcher; a dispatch
of an action of type `t` (not overridden in the instance registry) then
forwards an action whose payload is `g(payload, state)`, whose `type`
is the original `t`, and whose every other field equals the
corresponding field of the original action. -/
theorem payload_factory_patches_payload_only {S R : Type}
    (inst glob : Registry S) (t : String) (g : PayloadPatcher S)
    (state : S) (next : Obj → R) (a : Obj)
    (ht : t ≠ "")
    (hinst : Registry.get inst t = none)
    (hty : actionType a = t) :
    createPatchedPayloadAction (some t) (some g) glob
      = PPAResult.res (PAResult.creator (Registry.set glob t (wrapPayloadPatcher g))
          (createAction t))
    ∧ middleware inst (Registry.set glob t (wrapPayloadPatcher g)) state next a
      = next (Obj.set (Obj.set a "payload" (g (payloadOf a) state)) "type" (Value.vstr t))
    ∧ Obj.get (Obj.set (Obj.set a "payload" (g (payloadOf a) state)) "type" (Value.vstr t))
        "payload" = some (g (payloadOf a) state)
    ∧ Obj.get (Obj.set (Obj.set a "payload" (g (payloadOf a) state)) "type" (Value.vstr t))
        "type" = some (Value.vstr t)
    ∧ ∀ k, k ≠ "payload" → k ≠ "type" →
        Obj.get (Obj.set (Obj.set a "payload" (g (payloadOf a) state)) "type" (Value.vstr t)) k
          = Obj.get a k := by
  refine ⟨?_, ?_, ?_, obj_get_set_key _ _ _, ?_⟩
  · simp only [createPatchedPayloadAction, createPatchedAction]
    rw [if_neg ht, if_neg ht]
  · have h : jsOr (Registry.get inst (actionType a))
        (Registry.get (Registry.set glob t (wrapPayloadPatcher g)) (actionType a))
        = some (wrapPayloadPatcher g) := by
      rw [hty, hinst, registry_get_set_key, jsOr]
    rw [middleware_resolved inst _ state next a _ h, hty]
    rfl
  · rw [obj_get_set_ne _ _ _ _ (by decide), obj_get_set_key]
  · intro k hk1 hk2
    rw [obj_get_set_ne _ _ _ _ hk2, obj_get_set_ne _ _ _ _ hk1]

/-- Witness for C4 at a concrete action carrying an extra `meta` field,
instantiating the frame condition at that field. -/
theorem payload_factory_patches_payload_only_witness :
    createPatchedPayloadAction (some "t") (some wPayloadPatcher) (emptyRegistry Int)
      = PPAResult.res (PAResult.creator
          (Registry.set (emptyRegistry Int) "t" (wrapPayloadPatcher wPayloadPatcher))
          (createAction "t"))
    ∧ middleware (emptyRegistry Int)
        (Registry.set (emptyRegistry Int) "t" (wrapPayloadPatcher wPayloadPatcher))
        0 (fun o => o) wActionX
      = (fun o => o) (Obj.set (Obj.set wActionX "payload" (wPayloadPatcher (payloadOf wActionX) 0))
          "type" (Value.vstr "t"))
    ∧ Obj.get (Obj.set (Obj.set wActionX "payload" (wPayloadPatcher (payloadOf wActionX) 0))
        "type" (Value.vstr "t")) "payload" = some (wPayloadPatcher (payloadOf wActionX) 0)
    ∧ Obj.get (Obj.set (Obj.set wActionX "payload" (wPayloadPatcher (payloadOf wActionX) 0))
        "type" (Value.vstr "t")) "type" = some (Value.vstr "t")
    ∧ Obj.get (Obj.set (Obj.set wActionX "payload" (wPayloadPatcher (payloadOf wActionX) 0))
        "type" (Value.vstr "t")) "meta" = Obj.get wActionX "meta" := by
  have h := payload_factory_patches_payload_only (emptyRegistry Int) (emptyRegistry Int)
    "t" wPayloadPatcher 0 (fun o => o) wActionX (by decide) rfl rfl
  exact ⟨h.1, h.2.1, h.2.2.1, h.2.2.2.1, h.2.2.2.2 "meta" (by decide) (by decide)⟩

/-- Claim C5: a later registration for the same identifier silently
replaces the earlier one: after registering `f1` then `f2` under `t` in
the same registry, the registry maps `t` to `f2`, and dispatching an
action of type `t` forwards the result of `f2`. -/
theorem later_registration_replaces {S R : Type}
    (reg glob : Registry S) (t : String) (f1 f2 : Patcher S)
    (state : S) (next : Obj → R) (a : Obj)
    (hty : actionType a = t) :
    Registry.get (Registry.set (Registry.set reg t f1) t f2) t = some f2
    ∧ middleware (Registry.set (Registry.set reg t f1) t f2) glob state next a
      = next (Obj.set (f2 a state) "type" (Value.vstr t)) := by
  refine ⟨registry_get_set_key _ _ _, ?_⟩
  have h : jsOr (Registry.get (Registry.set (Registry.set reg t f1) t f2) (actionType a))
      (Registry.get glob (actionType a)) = some f2 := by
    rw [hty, registry_get_set_key, jsOr]
  rw [middleware_resolved _ _ state next a _ h, hty]

/-- Witness for C5: registering `wPatcher` then `wPatcherA` under `"t"`
leaves `wPatcherA` effective, and the dispatched action is patched by
`wPatcherA`. -/
theorem later_registration_replaces_witness :
    Registry.get (Registry.set (Registry.set (emptyRegistry Int) "t" wPatcher) "t" wPatcherA) "t"
      = some wPatcherA
    ∧ middleware (Registry.set (Registry.set (emptyRegistry Int) "t" wPatcher) "t" wPatcherA)
        (emptyRegistry Int) 0 (fun o => o) wAction
      = (fun o => o) (Obj.set (wPatcherA wAction 0) "type" (Value.vstr "t")) :=
  later_registration_replaces (emptyRegistry Int) (emptyRegistry Int) "t"
    wPatcher wPatcherA 0 (fun o => o) wAction rfl

end ReduxPatch

namespace ReduxPatch

/-- Claim C6: the direct form of the full-action factory registers `f`
under the nonempty identifier `t` at factory-call time and returns an
action creator building the plain `{type: t, payload: p}` action,
consulting neither the registry nor `f`. -/
theorem direct_factory_registers_and_returns_plain_creator {S : Type}
    (reg : Registry S) (t : String) (f : Patcher S) (p : Value)
    (ht : t ≠ "") :
    createPatchedAction (some t) (some f) reg
      = PAResult.creator (Registry.set reg t f) (createAction t)
    ∧ Registry.get (Registry.set reg t f) t = some f
    ∧ createAction t p = [("type", Value.vstr t), ("payload", p)] := by
  refine ⟨?_, registry_get_set_key _ _ _, rfl⟩
  simp only [createPatchedAction]
  rw [if_neg ht]

/-- Witness for C6 at a concrete identifier, patcher and payload. -/
theorem direct_factory_registers_and_returns_plain_creator_witness :
    createPatchedAction (some "t") (some wPatcher) (emptyRegistry Int)
      = PAResult.creator (Registry.set (emptyRegistry Int) "t" wPatcher) (createAction "t")
    ∧ Registry.get (Registry.set (emptyRegistry Int) "t" wPatcher) "t" = some wPatcher
    ∧ createAction "t" (Value.vnum 1) = [("type", Value.vstr "t"), ("payload", Value.vnum 1)] :=
  direct_factory_registers_and_returns_plain_creator (emptyRegistry Int) "t" wPatcher
    (Value.vnum 1) (by decide)

/-- Claim C7: for a nonempty identifier, the curried call and the
direct call of each factory register the identical entry in the
identical registry and return the identical action creator: applying
the function returned by the no-argument call at the pair yields
exactly the registry and creator that the direct call returns. -/
theorem curried_and_direct_calls_agree {S : Type}
    (reg : Registry S) (t : String) (f : Patcher S) (g : PayloadPatcher S)
    (ht : t ≠ "") :
    PAResult.applyCurried (createPatchedAction (none : Option String) none reg) t f
      = some (Registry.set reg t f, createAction t)
    ∧ createPatchedAction (some t) (some f) reg
      = PAResult.creator (Registry.set reg t f) (createAction t)
    ∧ PPAResult.applyCurried (createPatchedPayloadAction (none : Option String) none reg) t g
      = some (PAResult.creator (Registry.set reg t (wrapPayloadPatcher g)) (createAction t))
    ∧ createPatchedPayloadAction (some t) (some g) reg
      = PPAResult.res (PAResult.creator (Registry.set reg t (wrapPayloadPatcher g))
          (createAction t)) := by
  refine ⟨rfl, ?_, ?_, ?_⟩
  · simp only [createPatchedAction]
    rw [if_neg ht]
  · simp only [createPatchedPayloadAction, PPAResult.applyCurried, createPatchedAction]
    rw [if_neg ht]
  · simp only [createPatchedPayloadAction, createPatchedAction]
    rw [if_neg ht, if_neg ht]

/-- Witness for C7 at a concrete identifier, patcher and payload
patcher. -/
theorem curried_and_direct_calls_agree_witness :
    PAResult.applyCurried (createPatchedAction (none : Option String) none (emptyRegistry Int))
        "t" wPatcher
      = some (Registry.set (emptyRegistry Int) "t" wPatcher, createAction "t")
    ∧ createPatchedAction (some "t") (some wPatcher) (emptyRegistry Int)
      = PAResult.creator (Registry.set (emptyRegistry Int) "t" wPatcher) (createAction "t")
    ∧ PPAResult.applyCurried
        (createPatchedPayloadAction (none : Option String) none (emptyRegistry Int))
        "t" wPayloadPatcher
      = some (PAResult.creator
          (Registry.set (emptyRegistry Int) "t" (wrapPayloadPatcher wPayloadPatcher))
          (createAction "t"))
    ∧ createPatchedPayloadAction (some "t") (some wPayloadPatcher) (emptyRegistry Int)
      = PPAResult.res (PAResult.creator
          (Registry.set (emptyRegistry Int) "t" (wrapPayloadPatcher wPayloadPatcher))
          (createAction "t")) :=
  curried_and_direct_calls_agree (emptyRegistry Int) "t" wPatcher wPayloadPatcher (by decide)

end ReduxPatch

namespace ReduxPatch

/-- Claim C8: two-run noninterference across instance registries: in
the scoped-isolation scenario, dispatching an action of type `"x"`
through instance A forwards the action patched by `fA` (the
registration of A), and the run with the registration of B present
equals, stage for stage, the run without it. -/
theorem scoped_instances_do_not_interfere {S R : Type}
    (glob : Registry S) (fA fB : Patcher S) (state : S) (next : Obj → R) (a : Obj)
    (hty : actionType a = "x") :
    scopedIsolationRun glob fA fB true state next a
      = scopedIsolationRun glob fA fB false state next a
    ∧ scopedIsolationRun glob fA fB true state next a
      = next (Obj.set (fA a state) "type" (Value.vstr "x")) := by
  refine ⟨rfl, ?_⟩
  have hrun : scopedIsolationRun glob fA fB true state next a
      = middleware [("x", fA)] glob state next a := rfl
  have h : jsOr (Registry.get [("x", fA)] (actionType a)) (Registry.get glob (actionType a))
      = some fA := by
    rw [hty]
    rfl
  rw [hrun, middleware_resolved _ _ state next a _ h, hty]

/-- Witness for C8: instance A registers `wPatcherA` and instance B
registers `wPatcher`, both under `"x"`; the dispatch through A is
patched by `wPatcherA` and is unchanged by the existence of B. -/
theorem scoped_instances_do_not_interfere_witness :
    scopedIsolationRun (emptyRegistry Int) wPatcherA wPatcher true 0 (fun o => o) wXAction
      = scopedIsolationRun (emptyRegistry Int) wPatcherA wPatcher false 0 (fun o => o) wXAction
    ∧ scopedIsolationRun (emptyRegistry Int) wPatcherA wPatcher true 0 (fun o => o) wXAction
      = (fun o => o) (Obj.set (wPatcherA wXAction 0) "type" (Value.vstr "x")) :=
  scoped_instances_do_not_interfere (emptyRegistry Int) wPatcherA wPatcher 0
    (fun o => o) wXAction rfl

/-- Claim C9: the idempotence scenario: the factory call populates the
registry with the wrapped increment patcher; starting from state
`{amount: 0, extra: 2}` and dispatching `{type: "increment",
payload: {amount: 2}}` twice with the state-update rule in between, the
first forwarded payload has `amount = 4` and the state becomes
`{amount: 4, extra: 2}`, then the second forwarded payload has
`amount = 8` (the state is read freshly at the second interception) and
the state becomes `{amount: 8, extra: 2}`. -/
theorem idempotence_scenario :
    createPatchedPayloadAction (some "increment") (some incPayloadPatcher)
        (emptyRegistry RootState)
      = PPAResult.res (PAResult.creator incRegistry (createAction "increment"))
    ∧ numField (payloadOf (stepState ⟨0, 2⟩).2) "amount" = 4
    ∧ (stepState ⟨0, 2⟩).1 = ⟨4, 2⟩
    ∧ numField (payloadOf (stepState (stepState ⟨0, 2⟩).1).2) "amount" = 8
    ∧ (stepState (stepState ⟨0, 2⟩).1).1 = ⟨8, 2⟩ := by
  exact ⟨rfl, by decide, by decide, by decide, by decide⟩

/-- Claim C10: the empty-string identifier is treated exactly like an
omitted one: both factories, called with the empty identifier and a
transformation, register nothing and return no action creator for the
empty type — they take the curried branch and return the very same
partially applied factory, awaiting a new pair, as the call with no
arguments at all. -/
theorem empty_identifier_takes_curried_branch {S : Type}
    (reg : Registry S) (f : Patcher S) (g : PayloadPatcher S) :
    createPatchedAction (some "") (some f) reg
      = createPatchedAction (none : Option String) none reg
    ∧ createPatchedAction (some "") (some f) reg
      = PAResult.curried (fun t2 f2 => (Registry.set reg t2 f2, createAction t2))
    ∧ createPatchedPayloadAction (some "") (some g) reg
      = createPatchedPayloadAction (none : Option String) none reg
    ∧ createPatchedPayloadAction (some "") (some g) reg
      = PPAResult.curried (fun t2 g2 =>
          createPatchedAction (some t2) (some (wrapPayloadPatcher g2)) reg) :=
  ⟨rfl, rfl, rfl, rfl⟩

end ReduxPatch
